import Mathlib

/-!
Verification of the freelan endpoint-resolution core
(`src/include/freelan/endpoint.hpp`) against its design specification.

The C++ header defines an abstract `endpoint` capability with two concrete
variants: `ip_endpoint<AddressType>` (instantiated at IPv4 and IPv6
addresses) and `hostname_endpoint`.  The bodies of `ip_endpoint::resolve`
and `ip_endpoint::async_resolve` are present in the header and are
translated below; the bodies of `hostname_endpoint::resolve` and
`hostname_endpoint::async_resolve` are only declared there, so those two
operations are modelled from the specification text (each such definition
says so in its doc comment).

Machine integers are modelled as `Nat` (ports produced by parsing are
checked against `65535`, mirroring the `uint16_t` range check of
`boost::lexical_cast`).  A C++ exception escaping a function is modelled
by an explicit error value (`Except.error` on the synchronous path, the
`escaped` field of `AsyncOutcome` on the asynchronous path).
-/

set_option autoImplicit false

namespace Freelan

/-- IPv4 address: four octets, standing for `boost::asio::ip::address_v4`. -/
structure Ipv4Addr where
  b0 : Nat
  b1 : Nat
  b2 : Nat
  b3 : Nat
  deriving DecidableEq, Repr

/-- IPv6 address as eight 16-bit groups, standing for
`boost::asio::ip::address_v6`. -/
structure Ipv6Addr where
  g0 : Nat
  g1 : Nat
  g2 : Nat
  g3 : Nat
  g4 : Nat
  g5 : Nat
  g6 : Nat
  g7 : Nat
  deriving DecidableEq, Repr

/-- Generic IP address, standing for `boost::asio::ip::address` (the
version-independent address held by a `udp::endpoint`). -/
inductive IpAddress where
  | v4 (a : Ipv4Addr)
  | v6 (a : Ipv6Addr)
  deriving DecidableEq, Repr

/-- Dotted-decimal rendering of an IPv4 address, standing for
`address_v4::to_string` (external boost facility). -/
def Ipv4Addr.render (a : Ipv4Addr) : String :=
  Nat.repr a.b0 ++ "." ++ Nat.repr a.b1 ++ "." ++ Nat.repr a.b2 ++ "." ++ Nat.repr a.b3

/-- Lower-case hexadecimal digit character for a value below 16. -/
def hexDigitChar (n : Nat) : Char :=
  if n < 10 then Char.ofNat (48 + n) else Char.ofNat (87 + n)

/-- Hexadecimal rendering of a 16-bit group, leading zeros stripped. -/
def groupHex (n : Nat) : String :=
  let ds := [n / 4096 % 16, n / 256 % 16, n / 16 % 16, n % 16]
  let stripped := ds.dropWhile (fun d => d == 0)
  let kept := if stripped.isEmpty then [0] else stripped
  String.mk (kept.map hexDigitChar)

/-- Colon-separated rendering of an IPv6 address, standing for
`address_v6::to_string` (external boost facility; zero-run compression is
not reproduced since no claim depends on the exact text). -/
def Ipv6Addr.render (a : Ipv6Addr) : String :=
  String.intercalate ":"
    ([a.g0, a.g1, a.g2, a.g3, a.g4, a.g5, a.g6, a.g7].map groupHex)

/-- Rendering of a generic IP address, standing for `address::to_string`,
which dispatches on the stored family. -/
def IpAddress.render : IpAddress → String
  | .v4 a => a.render
  | .v6 a => a.render

/-- Errors the resolution core can produce.  `badLexicalCast` is the
`boost::bad_lexical_cast` exception thrown by `lexical_cast` (the spec's
`InvalidServiceFormat`); `emptyResult` and `resolutionFailure` are the
spec's hostname-path error kinds. -/
inductive ResolveError where
  | badLexicalCast
  | emptyResult
  | resolutionFailure (code : Nat)
  deriving DecidableEq, Repr

/-- Error code passed to a completion handler, standing for
`boost::system::error_code`; `ok` is the default-constructed (success)
code. -/
inductive ErrorCode where
  | ok
  | err (code : Nat)
  deriving DecidableEq, Repr

/-- Protocol selector (`udp::resolver::query::protocol_type`), opaque to
the resolution core. -/
abbrev Protocol := Nat

/-- Resolution flags (`udp::resolver::query::flags`), opaque to the
resolution core. -/
abbrev Flags := Nat

/-- Resolved transport endpoint, standing for
`boost::asio::ip::udp::endpoint`: an address plus a numeric port. -/
structure UdpEndpoint where
  address : IpAddress
  port : Nat
  deriving DecidableEq, Repr

/-- One entry of a resolver result iterator: the endpoint together with
the host and service names recorded alongside it
(`basic_resolver_entry`). -/
structure ResolverEntry where
  ep : UdpEndpoint
  host_name : String
  service_name : String
  deriving DecidableEq, Repr

/-- Resolution query handed to the injected resolver
(`udp::resolver::query`): host, service, protocol and flags. -/
structure Query where
  host : String
  service : String
  protocol : Protocol
  flags : Flags
  deriving DecidableEq, Repr

/-- Behaviour of the injected resolver capability (external collaborator,
§6 of the spec): a query yields either an error code or a candidate list
in resolver-preference order. -/
abbrev Resolver := Query → Except Nat (List ResolverEntry)

/-- One invocation of a completion handler: the error code and the result
entries delivered (`handler_type` of the header). -/
structure HandlerCall where
  ec : ErrorCode
  results : List ResolverEntry
  deriving DecidableEq, Repr

/-- Observable outcome of a call to `async_resolve`: the handler
invocations completed in place before the call returns, an exception
escaping the call (if any), and a resolver operation left in flight (to
be completed later by the resolver's event loop). -/
structure AsyncOutcome where
  inPlaceCalls : List HandlerCall
  escaped : Option ResolveError
  scheduled : Option Query
  deriving DecidableEq, Repr

/-- Address families the `ip_endpoint<AddressType>` template is
instantiated at; `toAddress` is boost's implicit conversion of a concrete
address into the generic `ip::address`. -/
class AddressFamily (α : Type) where
  toAddress : α → IpAddress

instance : AddressFamily Ipv4Addr := ⟨IpAddress.v4⟩

instance : AddressFamily Ipv6Addr := ⟨IpAddress.v6⟩

/-- Digit-consuming loop of `boost::lexical_cast`'s unsigned decimal
parse (external library, modelled from its contract): consumes the whole
string, fails on any non-digit character. -/
def lcastLoop : List Char → Nat → Option Nat
  | [], acc => some acc
  | c :: cs, acc =>
    if c.isDigit then lcastLoop cs (acc * 10 + (c.toNat - 48)) else none

/-- Model of `boost::lexical_cast<uint16_t>` applied to a string: the
whole string must be non-empty decimal digits and the value must fit in
16 bits; otherwise the cast throws (`none`). -/
def lexicalCastU16 (s : String) : Option Nat :=
  if s.data.isEmpty then none
  else
    match lcastLoop s.data 0 with
    | some v => if v ≤ 65535 then some v else none
    | none => none

/-- Numeric value of a list of decimal digit characters. -/
def digitsVal (cs : List Char) : Nat :=
  cs.foldl (fun acc c => acc * 10 + (c.toNat - 48)) 0

/-- Literal IP endpoint (`ip_endpoint<AddressType>`): an address and an
optional explicit port. -/
structure IpEndpoint (α : Type) where
  m_address : α
  m_port : Option Nat
  deriving DecidableEq, Repr

/-- Translation of `ip_endpoint<AddressType>::resolve`: with an explicit
port it returns `ep_type(m_address, *m_port)`; otherwise it returns
`ep_type(m_address, lexical_cast<base_port_type>(default_service))`,
where a failed cast throws `bad_lexical_cast`.  The `resolver`,
`protocol` and `flags` parameters appear in the signature but are unused
by the body, exactly as in the source. -/
def IpEndpoint.resolve {α : Type} [AddressFamily α] (e : IpEndpoint α)
    (resolver : Resolver) (protocol : Protocol) (flags : Flags)
    (default_service : String) : Except ResolveError UdpEndpoint :=
  match e.m_port with
  | some p => .ok ⟨AddressFamily.toAddress e.m_address, p⟩
  | none =>
    match lexicalCastU16 default_service with
    | some p => .ok ⟨AddressFamily.toAddress e.m_address, p⟩
    | none => .error .badLexicalCast

/-- Translation of `ip_endpoint<AddressType>::async_resolve`: it first
computes `resolve` (an exception from the cast escapes before the handler
is reached), builds a single-entry iterator
`iterator::create(ep, ep.address().to_string(), lexical_cast<string>(ep.port()))`
and invokes the handler in place with a default-constructed error code.
No resolver operation is ever scheduled. -/
def IpEndpoint.asyncResolve {α : Type} [AddressFamily α] (e : IpEndpoint α)
    (resolver : Resolver) (protocol : Protocol) (flags : Flags)
    (default_service : String) : AsyncOutcome :=
  match e.resolve resolver protocol flags default_service with
  | .error err => ⟨[], some err, none⟩
  | .ok ep => ⟨[⟨ErrorCode.ok, [⟨ep, ep.address.render, Nat.repr ep.port⟩]⟩], none, none⟩

/-- Hostname endpoint (`hostname_endpoint`): a hostname and an optional
service string (constructor translated from the header). -/
structure HostnameEndpoint where
  m_hostname : String
  m_service : Option String
  deriving DecidableEq, Repr

/-- Modelled from the spec: the body of `hostname_endpoint::resolve` is
declared but not defined under `src/`.  Per §4.3 the query is built from
the hostname and the endpoint's own service if present, otherwise the
caller's `default_service`. -/
def HostnameEndpoint.query (e : HostnameEndpoint) (protocol : Protocol)
    (flags : Flags) (default_service : String) : Query :=
  ⟨e.m_hostname, e.m_service.getD default_service, protocol, flags⟩

/-- Modelled from the spec: the body of `hostname_endpoint::resolve` is
missing from `src/`.  Per §4.3 and §7 it delegates the query to the
injected resolver, returns the first candidate in resolver order, fails
with `EmptyResult` on zero candidates, and surfaces resolver errors
verbatim as `ResolutionFailure`. -/
def HostnameEndpoint.resolve (e : HostnameEndpoint) (resolver : Resolver)
    (protocol : Protocol) (flags : Flags) (default_service : String) :
    Except ResolveError UdpEndpoint :=
  match resolver (e.query protocol flags default_service) with
  | .error code => .error (.resolutionFailure code)
  | .ok [] => .error .emptyResult
  | .ok (x :: _) => .ok x.ep

/-- Modelled from the spec: the body of `hostname_endpoint::async_resolve`
is missing from `src/`.  Per §4.3 it hands the query to the injected
resolver's asynchronous operation; the handler is invoked later by the
resolver with its full candidate sequence (or its error), so nothing is
called in place and one resolver operation is left in flight. -/
def HostnameEndpoint.asyncResolve (e : HostnameEndpoint) (resolver : Resolver)
    (protocol : Protocol) (flags : Flags) (default_service : String) :
    AsyncOutcome :=
  ⟨[], none, some (e.query protocol flags default_service)⟩

/-- Completion of an in-flight resolver operation by the resolver's event
loop: the handler receives the resolver's error with no entries, or a
default-constructed error code with the full candidate sequence
(forwarded verbatim, preserving order). -/
def completeQuery (resolver : Resolver) (q : Query) : HandlerCall :=
  match resolver q with
  | .error code => ⟨ErrorCode.err code, []⟩
  | .ok l => ⟨ErrorCode.ok, l⟩

/-- All handler invocations an `async_resolve` call gives rise to: those
completed in place, followed by the completion of the scheduled resolver
operation, if one is in flight. -/
def eventualCalls (resolver : Resolver) (o : AsyncOutcome) : List HandlerCall :=
  o.inPlaceCalls ++
    (match o.scheduled with
     | some q => [completeQuery resolver q]
     | none => [])

/-- Closed variant set of the `endpoint` base class: the two
instantiations of the `ip_endpoint` template and `hostname_endpoint`. -/
inductive Endpoint where
  | ipv4 (e : IpEndpoint Ipv4Addr)
  | ipv6 (e : IpEndpoint Ipv6Addr)
  | hostname (e : HostnameEndpoint)
  deriving DecidableEq, Repr

/-- Virtual dispatch of `endpoint::resolve` over the closed variant
set. -/
def Endpoint.resolve : Endpoint → Resolver → Protocol → Flags → String →
    Except ResolveError UdpEndpoint
  | .ipv4 e, r, p, f, ds => e.resolve r p f ds
  | .ipv6 e, r, p, f, ds => e.resolve r p f ds
  | .hostname e, r, p, f, ds => e.resolve r p f ds

/-- Virtual dispatch of `endpoint::async_resolve` over the closed variant
set. -/
def Endpoint.asyncResolve : Endpoint → Resolver → Protocol → Flags → String →
    AsyncOutcome
  | .ipv4 e, r, p, f, ds => e.asyncResolve r p f ds
  | .ipv6 e, r, p, f, ds => e.asyncResolve r p f ds
  | .hostname e, r, p, f, ds => e.asyncResolve r p f ds

/-- State-passing form of `endpoint::resolve`, returning the object state
at method exit alongside the result: no method body under the variants
assigns to `m_address`, `m_port`, `m_hostname` or `m_service`, so the
exit state re-reads the unmodified fields. -/
def Endpoint.resolveSt (e : Endpoint) (resolver : Resolver)
    (protocol : Protocol) (flags : Flags) (default_service : String) :
    Except ResolveError UdpEndpoint × Endpoint :=
  (e.resolve resolver protocol flags default_service, e)

/-- State-passing form of `endpoint::async_resolve`, returning the object
state at method exit alongside the outcome; as with `resolveSt`, no body
writes any member field. -/
def Endpoint.asyncResolveSt (e : Endpoint) (resolver : Resolver)
    (protocol : Protocol) (flags : Flags) (default_service : String) :
    AsyncOutcome × Endpoint :=
  (e.asyncResolve resolver protocol flags default_service, e)

/-- First transport endpoint carried by a handler invocation, if any. -/
def firstEndpoint? (c : HandlerCall) : Option UdpEndpoint :=
  c.results.head?.map (fun x => x.ep)

/-- Formalisation of "the synchronous and asynchronous operations yield
the same Transport Endpoint (or the same failure)": a synchronous success
must match a single handler invocation carrying that endpoint first; a
synchronous resolver failure must match a handler invocation carrying the
same error code; a synchronous exception must match the same exception
escaping the asynchronous call before any handler invocation. -/
def sameOutcome (resolver : Resolver) (sync : Except ResolveError UdpEndpoint)
    (o : AsyncOutcome) : Bool :=
  match sync, o.escaped, eventualCalls resolver o with
  | .ok ep, none, [c] => decide (c.ec = ErrorCode.ok ∧ firstEndpoint? c = some ep)
  | .error (.resolutionFailure code), none, [c] => decide (c.ec = ErrorCode.err code)
  | .error err, some err2, [] => decide (err = err2)
  | _, _, _ => false

/-- Concrete resolver behaviour returning zero candidates, used by
concrete instantiations below. -/
def noResults : Resolver := fun _ => .ok []

/-- Concrete resolver behaviour returning one candidate, used by concrete
instantiations below. -/
def oneResult : Resolver :=
  fun _ => .ok [⟨⟨IpAddress.v4 ⟨192, 0, 2, 1⟩, 8080⟩, "example.org", "8080"⟩]

/-- Digit-loop characterisation: `lcastLoop` succeeds exactly on all-digit
input and then folds up the decimal value. -/
theorem lcastLoop_eq (cs : List Char) : ∀ acc : Nat,
    lcastLoop cs acc
      = if cs.all (fun c => c.isDigit)
        then some (cs.foldl (fun acc c => acc * 10 + (c.toNat - 48)) acc)
        else none := by
  induction cs with
  | nil => intro acc; simp [lcastLoop]
  | cons c cs ih =>
    intro acc
    simp only [lcastLoop, List.all_cons, List.foldl]
    cases hc : c.isDigit <;> simp [hc, ih]

/-- Cast characterisation: the `lexical_cast<uint16_t>` model succeeds
exactly on a non-empty all-digit string whose value fits in 16 bits, and
then returns the decimal value. -/
theorem lexicalCastU16_eq (s : String) :
    lexicalCastU16 s
      = if s.data ≠ [] ∧ s.data.all (fun c => c.isDigit) = true
             ∧ digitsVal s.data ≤ 65535
        then some (digitsVal s.data)
        else none := by
  unfold lexicalCastU16 digitsVal
  cases hd : s.data with
  | nil => simp
  | cons c cs =>
    simp only [List.isEmpty_cons, Bool.false_eq_true, if_false]
    rw [lcastLoop_eq]
    by_cases hall : (c :: cs).all (fun c => c.isDigit) = true
    · simp only [hall, if_true]
      by_cases hle :
          (c :: cs).foldl (fun acc c => acc * 10 + (c.toNat - 48)) 0 ≤ 65535 <;>
        simp [hle, hall]
    · simp [hall]

/-- Synchronous literal resolution can only fail by the cast throwing:
every error it produces is `badLexicalCast`. -/
theorem IpEndpoint.resolve_error_eq {α : Type} [AddressFamily α]
    (e : IpEndpoint α) (resolver : Resolver) (protocol : Protocol)
    (flags : Flags) (default_service : String) (err : ResolveError)
    (h : e.resolve resolver protocol flags default_service = .error err) :
    err = .badLexicalCast := by
  unfold IpEndpoint.resolve at h
  cases hp : e.m_port with
  | some p => rw [hp] at h; cases h
  | none =>
    rw [hp] at h
    cases hc : lexicalCastU16 default_service with
    | some v => rw [hc] at h; cases h
    | none =>
      rw [hc] at h
      injection h with h2
      exact h2.symm

/-- C1: a literal address endpoint constructed with an explicit port `P`
and any address `A` resolves to the transport endpoint `(A, P)` for every
`default_service` string (malformed ones included), for every resolver,
protocol and flags — no resolver access and no failure path. -/
theorem c1_literal_resolve_explicit_port {α : Type} [AddressFamily α]
    (A : α) (P : Nat) (resolver : Resolver) (protocol : Protocol)
    (flags : Flags) (default_service : String) :
    (IpEndpoint.mk A (some P)).resolve resolver protocol flags default_service
      = .ok ⟨AddressFamily.toAddress A, P⟩ := rfl

/-- C2: a literal address endpoint with no explicit port parses
`default_service` as a base-10 unsigned 16-bit integer: on a non-empty
all-digit string whose value fits in 16 bits it resolves to that port;
on any other content it fails with the thrown-cast error (the spec's
`InvalidServiceFormat`). -/
theorem c2_literal_no_port_parses_default_service {α : Type} [AddressFamily α]
    (A : α) (resolver : Resolver) (protocol : Protocol) (flags : Flags)
    (default_service : String) :
    (IpEndpoint.mk A none).resolve resolver protocol flags default_service
      = if default_service.data ≠ []
           ∧ default_service.data.all (fun c => c.isDigit) = true
           ∧ digitsVal default_service.data ≤ 65535
        then .ok ⟨AddressFamily.toAddress A, digitsVal default_service.data⟩
        else .error .badLexicalCast := by
  simp only [IpEndpoint.resolve, lexicalCastU16_eq]
  split_ifs with h <;> simp

/-- C5: a hostname endpoint delegates to the injected resolver (with the
query built from its hostname and its own service if present, otherwise
`default_service`); synchronous resolution returns the first candidate in
resolver order, or fails with `EmptyResult` when the resolver returns
zero candidates. -/
theorem c5_hostname_resolve_first_or_empty (e : HostnameEndpoint)
    (resolver : Resolver) (protocol : Protocol) (flags : Flags)
    (default_service : String) (l : List ResolverEntry)
    (h : resolver (e.query protocol flags default_service) = .ok l) :
    e.resolve resolver protocol flags default_service
      = match l with
        | [] => .error .emptyResult
        | x :: _ => .ok x.ep := by
  cases l with
  | nil => simp [HostnameEndpoint.resolve, h]
  | cons x xs => simp [HostnameEndpoint.resolve, h]

/-- C5 witness: the endpoint `"example.org"` with no explicit service and
a resolver returning zero candidates fails with `EmptyResult`. -/
theorem c5_hostname_resolve_first_or_empty_witness :
    (HostnameEndpoint.mk "example.org" none).resolve noResults 0 0 "1234"
      = .error .emptyResult :=
  c5_hostname_resolve_first_or_empty ⟨"example.org", none⟩ noResults 0 0 "1234" [] rfl

/-- C6: when synchronous resolution of a literal endpoint succeeds with
transport endpoint `ep`, `async_resolve` performs exactly one in-place
handler invocation carrying a single-entry success result: `ep` itself
together with the rendering of its address and the decimal rendering of
its port; nothing escapes and nothing is scheduled. -/
theorem c6_literal_async_success_shape {α : Type} [AddressFamily α]
    (e : IpEndpoint α) (resolver : Resolver) (protocol : Protocol)
    (flags : Flags) (default_service : String) (ep : UdpEndpoint)
    (h : e.resolve resolver protocol flags default_service = .ok ep) :
    e.asyncResolve resolver protocol flags default_service
      = ⟨[⟨ErrorCode.ok, [⟨ep, ep.address.render, Nat.repr ep.port⟩]⟩], none, none⟩ := by
  unfold IpEndpoint.asyncResolve
  rw [h]

/-- C6 witness: the literal endpoint `9.0.0.1` with explicit port `80`
delivers one handler call whose single entry carries the endpoint and the
strings `"9.0.0.1"` and `"80"`. -/
theorem c6_literal_async_success_shape_witness :
    (IpEndpoint.mk (Ipv4Addr.mk 9 0 0 1) (some 80)).asyncResolve noResults 0 0 "junk"
      = ⟨[⟨ErrorCode.ok, [⟨⟨IpAddress.v4 ⟨9, 0, 0, 1⟩, 80⟩, "9.0.0.1", "80"⟩]⟩],
         none, none⟩ :=
  c6_literal_async_success_shape (IpEndpoint.mk (Ipv4Addr.mk 9 0 0 1) (some 80))
    noResults 0 0 "junk" ⟨IpAddress.v4 ⟨9, 0, 0, 1⟩, 80⟩ rfl

/-- C7: literal `async_resolve` never schedules a resolver operation, and
every handler invocation it ever gives rise to is one of the invocations
completed in place before the call returns: completion is
synchronous-in-place. -/
theorem c7_literal_async_completes_in_place {α : Type} [AddressFamily α]
    (e : IpEndpoint α) (resolver : Resolver) (protocol : Protocol)
    (flags : Flags) (default_service : String) :
    (e.asyncResolve resolver protocol flags default_service).scheduled = none
    ∧ eventualCalls resolver (e.asyncResolve resolver protocol flags default_service)
        = (e.asyncResolve resolver protocol flags default_service).inPlaceCalls := by
  unfold IpEndpoint.asyncResolve
  cases e.resolve resolver protocol flags default_service <;>
    simp [eventualCalls]

/-- C8: neither `resolve` nor `async_resolve` mutates the endpoint: the
object state at method exit equals the state at entry, for every variant
and all arguments. -/
theorem c8_resolution_never_mutates_endpoint (e : Endpoint) (resolver : Resolver)
    (protocol : Protocol) (flags : Flags) (default_service : String) :
    (e.resolveSt resolver protocol flags default_service).2 = e
    ∧ (e.asyncResolveSt resolver protocol flags default_service).2 = e :=
  ⟨rfl, rfl⟩

/-- C9: the result of literal `resolve` depends only on the endpoint's
fields and `default_service`: two calls differing only in resolver,
protocol or flags produce identical results. -/
theorem c9_literal_resolve_ignores_resolver_protocol_flags {α : Type}
    [AddressFamily α] (e : IpEndpoint α) (r1 r2 : Resolver)
    (p1 p2 : Protocol) (f1 f2 : Flags) (default_service : String) :
    e.resolve r1 p1 f1 default_service = e.resolve r2 p2 f2 default_service := rfl

/-- C10: every handler invocation made by literal `async_resolve` carries
the default-constructed (success) error code; and with no explicit port
and an unparsable `default_service` the call makes no handler invocation
at all — the cast failure escapes as an exception. -/
theorem c10_literal_async_success_code_or_escape {α : Type} [AddressFamily α]
    (e : IpEndpoint α) (resolver : Resolver) (protocol : Protocol)
    (flags : Flags) (default_service : String) :
    ((eventualCalls resolver (e.asyncResolve resolver protocol flags default_service)).all
        (fun c => decide (c.ec = ErrorCode.ok)) = true)
    ∧ (match e.m_port, lexicalCastU16 default_service with
       | none, none =>
         e.asyncResolve resolver protocol flags default_service
           = ⟨[], some ResolveError.badLexicalCast, none⟩
       | _, _ => True) := by
  obtain ⟨a, p⟩ := e
  constructor
  · unfold IpEndpoint.asyncResolve
    cases h : IpEndpoint.resolve ⟨a, p⟩ resolver protocol flags default_service <;>
      simp [eventualCalls]
  · cases p with
    | some v => exact trivial
    | none =>
      cases hc : lexicalCastU16 default_service with
      | some v => exact trivial
      | none => simp [IpEndpoint.asyncResolve, IpEndpoint.resolve, hc]

/-- C3 counterexample: for the hostname endpoint `"example.org"` and a
resolver returning zero candidates, synchronous `resolve` fails with
`EmptyResult` while `async_resolve` delivers a success invocation with an
empty candidate list — not the same outcome. -/
theorem c3_sync_async_counterexample :
    sameOutcome noResults
      ((Endpoint.hostname ⟨"example.org", none⟩).resolve noResults 0 0 "1234")
      ((Endpoint.hostname ⟨"example.org", none⟩).asyncResolve noResults 0 0 "1234")
      = false
    ∧ (Endpoint.hostname ⟨"example.org", none⟩).resolve noResults 0 0 "1234"
        = .error .emptyResult
    ∧ eventualCalls noResults
        ((Endpoint.hostname ⟨"example.org", none⟩).asyncResolve noResults 0 0 "1234")
        = [⟨ErrorCode.ok, []⟩] :=
  ⟨rfl, rfl, rfl⟩

/-- C3 (amended): for every literal endpoint, and for every hostname
endpoint whose resolver query does not come back with zero candidates,
`resolve` and `async_resolve` on identical arguments yield the same
transport endpoint on success or the same failure. -/
theorem c3_sync_async_agree_amended (e : Endpoint) (resolver : Resolver)
    (protocol : Protocol) (flags : Flags) (default_service : String)
    (h : ∀ he : HostnameEndpoint, e = .hostname he →
         resolver (he.query protocol flags default_service) ≠ .ok []) :
    sameOutcome resolver (e.resolve resolver protocol flags default_service)
      (e.asyncResolve resolver protocol flags default_service) = true := by
  cases e with
  | ipv4 e =>
    simp only [Endpoint.resolve, Endpoint.asyncResolve, IpEndpoint.asyncResolve]
    cases hr : e.resolve resolver protocol flags default_service with
    | ok ep => simp [sameOutcome, eventualCalls, firstEndpoint?]
    | error err => cases err <;> simp [sameOutcome, eventualCalls]
  | ipv6 e =>
    simp only [Endpoint.resolve, Endpoint.asyncResolve, IpEndpoint.asyncResolve]
    cases hr : e.resolve resolver protocol flags default_service with
    | ok ep => simp [sameOutcome, eventualCalls, firstEndpoint?]
    | error err => cases err <;> simp [sameOutcome, eventualCalls]
  | hostname he =>
    have hne := h he rfl
    simp only [Endpoint.resolve, Endpoint.asyncResolve]
    cases hq : resolver (he.query protocol flags default_service) with
    | error code =>
      simp [sameOutcome, eventualCalls, completeQuery, HostnameEndpoint.resolve,
        HostnameEndpoint.asyncResolve, hq]
    | ok l =>
      cases l with
      | nil => exact absurd hq hne
      | cons x xs =>
        simp [sameOutcome, eventualCalls, completeQuery, HostnameEndpoint.resolve,
          HostnameEndpoint.asyncResolve, hq, firstEndpoint?]

/-- C3 witness: the hostname endpoint `"example.org"` with a resolver
returning one candidate satisfies the hypothesis, and its synchronous and
asynchronous outcomes agree. -/
theorem c3_sync_async_agree_amended_witness :
    sameOutcome oneResult
      ((Endpoint.hostname ⟨"example.org", none⟩).resolve oneResult 0 0 "1234")
      ((Endpoint.hostname ⟨"example.org", none⟩).asyncResolve oneResult 0 0 "1234")
      = true :=
  c3_sync_async_agree_amended (.hostname ⟨"example.org", none⟩) oneResult 0 0 "1234"
    (by intro he hhe hcontra; cases hhe; simp [oneResult] at hcontra)

/-- C4 counterexample: the literal endpoint `127.0.0.1` with no explicit
port and the unparsable `default_service` string `"not-a-number"` gives
rise to zero handler invocations; its failure is not delivered through
the callback but escapes as the thrown-cast exception. -/
theorem c4_async_callback_counterexample :
    eventualCalls noResults
      ((Endpoint.ipv4 ⟨⟨127, 0, 0, 1⟩, none⟩).asyncResolve noResults 0 0 "not-a-number")
      = []
    ∧ ((Endpoint.ipv4 ⟨⟨127, 0, 0, 1⟩, none⟩).asyncResolve noResults 0 0 "not-a-number").escaped
        = some ResolveError.badLexicalCast :=
  ⟨rfl, rfl⟩

/-- C4 (amended): whenever `async_resolve` returns without an escaping
exception the completion handler is invoked exactly once (with a success
or failure value); the only exception escaping it is the literal path's
cast failure on an unparsable `default_service`, and then the handler is
never invoked. -/
theorem c4_async_callback_amended (e : Endpoint) (resolver : Resolver)
    (protocol : Protocol) (flags : Flags) (default_service : String) :
    (match (e.asyncResolve resolver protocol flags default_service).escaped with
     | none =>
       (eventualCalls resolver
         (e.asyncResolve resolver protocol flags default_service)).length = 1
     | some err =>
       eventualCalls resolver (e.asyncResolve resolver protocol flags default_service)
           = []
       ∧ err = ResolveError.badLexicalCast) := by
  cases e with
  | ipv4 e =>
    simp only [Endpoint.asyncResolve, IpEndpoint.asyncResolve]
    cases hr : e.resolve resolver protocol flags default_service with
    | ok ep => simp [eventualCalls]
    | error err =>
      have herr := IpEndpoint.resolve_error_eq e resolver protocol flags
        default_service err hr
      simp [eventualCalls, herr]
  | ipv6 e =>
    simp only [Endpoint.asyncResolve, IpEndpoint.asyncResolve]
    cases hr : e.resolve resolver protocol flags default_service with
    | ok ep => simp [eventualCalls]
    | error err =>
      have herr := IpEndpoint.resolve_error_eq e resolver protocol flags
        default_service err hr
      simp [eventualCalls, herr]
  | hostname he =>
    simp [Endpoint.asyncResolve, HostnameEndpoint.asyncResolve, eventualCalls]

end Freelan
